import Mathlib

/-!
Shallow embedding of `revitron/parameter.py`, a thin convenience layer over
the Revit host API for reading and writing element parameters, binding
shared parameters to categories, and rendering template strings.

Host-owned objects (Revit parameters, documents, the shared parameter file,
the built-in parameter enumeration) are modelled as explicit Lean data:
a host parameter is a record of the results its accessor methods return,
a document carries its shared parameter elements and its parameter-binding
map as lists in iterator order, and host reflection is a record of the
`dir` listing together with the `getattr`/`GetLabelFor` calls (each of
which may raise, modelled with `Except`). Python falsiness of `None` is
modelled with `Option`; a Python exception escaping a function is modelled
with `Except PyError`. Side effects on host state are modelled by explicit
state passing plus a trace of the host calls performed.
-/

namespace Revitron

/-- Values flowing through the embedded code: the results of the host
parameter accessors `AsString`, `AsValueString`, `AsInteger`, `AsDouble`
and `AsElementId`, kept in one sum so that the dynamically typed Python
return values can be compared. A host double is modelled as a rational:
the code only passes doubles through, it never computes with them. -/
inductive Value where
  | vstr (s : String)
  | vint (i : Int)
  | vdbl (q : Rat)
  | velemId (e : Int)
deriving DecidableEq

/-- A Python exception, by kind: calling `None` raises `TypeError`,
attribute access on `None` raises `AttributeError`, a failed dict or
enum lookup raises `KeyError`/`AttributeError`. -/
inductive PyError where
  | typeError
  | attributeError
  | keyError
deriving DecidableEq

/-- The host parameter object behind `element.LookupParameter(name)`:
the string rendering of its `StorageType`, its `HasValue` flag, the
results of its accessor methods and its `IsReadOnly` flag. -/
structure HostParameter where
  storageType : String
  hasValue : Bool
  asString : String
  asValueString : String
  asInteger : Int
  asDouble : Rat
  asElementId : Int
  isReadOnly : Bool
deriving DecidableEq

/-- The `Parameter` wrapper: `self.parameter` is the host parameter or
`None` when `LookupParameter` found nothing. -/
structure Parameter where
  parameter : Option HostParameter
deriving DecidableEq

/-- Python truthiness of an optional boolean: `None` is falsy. -/
def truthy : Option Bool → Bool
  | some b => b
  | none => false

/-- `Parameter.exists`: `self.parameter != None`. (`exists` is a reserved
word in Lean, hence the suffix.) -/
def Parameter.existsParam (p : Parameter) : Bool :=
  p.parameter.isSome

/-- `Parameter.hasValue`: returns `self.parameter.HasValue` when the
parameter exists, `None` (falsy) otherwise. -/
def Parameter.hasValue (p : Parameter) : Option Bool :=
  match p.parameter with
  | some hp => some hp.hasValue
  | none => none

/-- `Parameter.getString`: `AsString()` when `self.hasValue()` is truthy,
the empty string otherwise. -/
def Parameter.getString (p : Parameter) : Value :=
  match p.parameter with
  | some hp => if hp.hasValue then .vstr hp.asString else .vstr ""
  | none => .vstr ""

/-- `Parameter.getValueString`: `AsValueString()` when `self.hasValue()`
is truthy, the empty string otherwise. -/
def Parameter.getValueString (p : Parameter) : Value :=
  match p.parameter with
  | some hp => if hp.hasValue then .vstr hp.asValueString else .vstr ""
  | none => .vstr ""

/-- `Parameter.getInteger`: `AsInteger()` when `self.hasValue()` is truthy,
`0` otherwise. -/
def Parameter.getInteger (p : Parameter) : Value :=
  match p.parameter with
  | some hp => if hp.hasValue then .vint hp.asInteger else .vint 0
  | none => .vint 0

/-- `Parameter.getDouble`: `AsDouble()` when `self.hasValue()` is truthy,
`0.0` otherwise. -/
def Parameter.getDouble (p : Parameter) : Value :=
  match p.parameter with
  | some hp => if hp.hasValue then .vdbl hp.asDouble else .vdbl 0
  | none => .vdbl 0

/-- `Parameter.getElementId`: `AsElementId()` when `self.hasValue()` is
truthy, the plain integer `0` otherwise (not an ElementId object: the
distinct `Value` constructors record the distinct Python types). -/
def Parameter.getElementId (p : Parameter) : Value :=
  match p.parameter with
  | some hp => if hp.hasValue then .velemId hp.asElementId else .vint 0
  | none => .vint 0

/-- List of the storage-type names the `switcher` dict of `Parameter.get`
handles. -/
def handledStorageTypes : List String :=
  ["String", "ValueString", "Integer", "Double", "ElementId"]

/-- `Parameter.get`: the storage type name is `str(self.parameter.StorageType)`
when the parameter exists and the literal `'String'` otherwise; the
`switcher` dict maps the five handled names to the bound getter methods and
`switcher.get` returns `None` for any other key, so that the final call
`value()` raises `TypeError` for an unhandled storage-type name. -/
def Parameter.get (p : Parameter) : Except PyError Value :=
  let storageType : String :=
    match p.parameter with
    | some hp => hp.storageType
    | none => "String"
  let switcher : String → Option Value := fun key =>
    if key = "String" then some p.getString
    else if key = "ValueString" then some p.getValueString
    else if key = "Integer" then some p.getInteger
    else if key = "Double" then some p.getDouble
    else if key = "ElementId" then some p.getElementId
    else none
  match switcher storageType with
  | some value => .ok value
  | none => .error .typeError

/-- A call made on a host parameter object; `Parameter.set` performs
`self.parameter.Set(value)` at most once. -/
inductive HostCall where
  | setValue (v : Value)
deriving DecidableEq

/-- `Parameter.set`: delegates `Set(value)` to the host parameter only when
`self.parameter != None and not self.parameter.IsReadOnly`; the Python
method body has no `return`, so the returned value is always `None`
(modelled as `none`). The first component is the trace of host calls. -/
def Parameter.set (p : Parameter) (value : Value) : List HostCall × Option Value :=
  match p.parameter with
  | some hp => if !hp.isReadOnly then ([.setValue value], none) else ([], none)
  | none => ([], none)

/-- A Revit parameter definition (the `GetDefinition()` result of a shared
parameter element, or the key of a parameter-binding map entry): its
user-visible `Name` and its `Id` (an ElementId, modelled as an integer). -/
structure Definition where
  name : String
  id : Int
deriving DecidableEq

/-- A parameter binding: the set of categories it applies to, kept as the
list of category names in iterator order. -/
structure Binding where
  categories : List String
deriving DecidableEq

/-- The host document state this module touches: the shared parameter
elements (each represented by its definition, in the iteration order of
`revitron.Filter().byClass(SharedParameterElement).getElements()`) and the
`ParameterBindings` map (as an association list in forward-iterator
order). -/
structure Doc where
  sharedParams : List Definition
  parameterBindings : List (Definition × Binding)
deriving DecidableEq

/-- The host `ParameterBindings[definition]` indexer: the binding mapped to
the definition, or null (`None`) when the definition is not a key of the
map. -/
def bindingFor (doc : Doc) (d : Definition) : Option Binding :=
  (doc.parameterBindings.find? (fun db => db.1 == d)).map (fun db => db.2)

/-- `Parameter.isBoundToCategory`: scans the shared parameter elements for
the first one whose definition carries `paramName` (the loop `break`s on
the first hit); when one is found, looks its binding up and returns `True`
on the first category whose name is `category`. Every fall-through path
returns `None` (Python functions return `None` implicitly), never `False`.
When the definition found is not a key of `ParameterBindings`, the host
indexer yields `None` and the iteration `for cat in binding.Categories`
raises `AttributeError`. -/
def Parameter.isBoundToCategory (doc : Doc) (category paramName : String) :
    Except PyError (Option Bool) :=
  match doc.sharedParams.find? (fun d => d.name == paramName) with
  | none => .ok none
  | some definition =>
    match bindingFor doc definition with
    | none => .error .attributeError
    | some binding =>
      if binding.categories.contains category then .ok (some true) else .ok none

/-- A group of the shared parameter file: its `Name` and its `Definitions`
collection in iteration order. -/
structure DefinitionGroup where
  name : String
  definitions : List Definition
deriving DecidableEq

/-- The shared parameter file `revitron.APP.OpenSharedParameterFile()`:
its `Groups` collection in iteration order. -/
structure SharedParamFile where
  groups : List DefinitionGroup
deriving DecidableEq

/-- The host state `Parameter.bind` reads and writes: the document, the
result of `revitron.APP.OpenSharedParameterFile()` — `None` when no shared
parameter file is configured in the host — and a fresh-id counter standing
for the host's allocation of ids to newly created external definitions. -/
structure HostState where
  doc : Doc
  paramFile : Option SharedParamFile
  nextId : Int
deriving DecidableEq

/-- The host calls `Parameter.bind` can perform, as trace events:
`Groups.Create`, `Definitions.Create` (recorded with the new definition's
name) and `ParameterBindings.Insert`. -/
inductive HostEvent where
  | createGroup (name : String)
  | createDefinition (name : String)
  | insertBinding (d : Definition) (b : Binding)
deriving DecidableEq

/-- Member names of the host enum `revitron.DB.ParameterType`, as reached
by `getattr`; only membership matters to the embedding, so a fixed
selection of the enum's members is listed, with `'Text'` (the default
argument of `Parameter.bind`) among them. -/
def parameterTypeNames : List String :=
  ["Text", "Integer", "Number", "Length", "Area", "Volume", "Angle", "URL",
   "Material", "YesNo"]

/-- The host `ParameterBindings.Insert(definition, binding)`: inserts the
pair when the definition is not yet a key of the map and otherwise leaves
the map unchanged (the host returns `False` then, a value the code
ignores). -/
def BindingMap.insertPair (m : List (Definition × Binding)) (d : Definition)
    (b : Binding) : List (Definition × Binding) :=
  if m.any (fun db => db.1 == d) then m else m ++ [(d, b)]

/-- `Parameter.bind`: returns `True` (state untouched, no host calls) when
`isBoundToCategory` is truthy, and propagates any exception that check
raises; otherwise it calls `revitron.APP.OpenSharedParameterFile()` — when
that returns `None`, the iteration `for item in paramFile.Groups` raises
`AttributeError` — then finds or creates the `'__API'` group of the shared
parameter file, finds or creates the external definition named `paramName`
inside it (a `getattr` on the host `ParameterType` enum raises
`AttributeError` for an unknown type name), builds a category set holding
the category resolved by `revitron.Category(category).get()` — modelled
from the spec as resolving the category by its name, the code for
`revitron.Category` being outside this module — wraps it in a new instance
binding, inserts that binding into `ParameterBindings` and falls through
returning `None`. The result carries the new host state, the trace of
creation and insertion calls and the Python return value. -/
def Parameter.bind (st : HostState) (category paramName paramType : String) :
    Except PyError (HostState × List HostEvent × Option Bool) :=
  match Parameter.isBoundToCategory st.doc category paramName with
  | .error e => .error e
  | .ok r =>
    if truthy r then .ok (st, [], some true)
    else
      match st.paramFile with
      | none => .error .attributeError
      | some paramFile =>
        let found := paramFile.groups.find? (fun g => g.name == "__API")
        let group : DefinitionGroup :=
          match found with
          | some g => g
          | none => ⟨"__API", []⟩
        let groups1 : List DefinitionGroup :=
          match found with
          | some _ => paramFile.groups
          | none => paramFile.groups ++ [⟨"__API", []⟩]
        let evs1 : List HostEvent :=
          match found with
          | some _ => []
          | none => [.createGroup "__API"]
        match group.definitions.find? (fun d => d.name == paramName) with
        | some definition =>
          let binding : Binding := ⟨[category]⟩
          .ok ({ doc := { st.doc with
                   parameterBindings :=
                     BindingMap.insertPair st.doc.parameterBindings definition binding },
                 paramFile := some ⟨groups1⟩, nextId := st.nextId },
               evs1 ++ [.insertBinding definition binding], none)
        | none =>
          if parameterTypeNames.contains paramType then
            let definition : Definition := ⟨paramName, st.nextId⟩
            let groups2 := groups1.map (fun g =>
              if g.name == "__API" then
                { g with definitions := g.definitions ++ [definition] }
              else g)
            let binding : Binding := ⟨[category]⟩
            .ok ({ doc := { st.doc with
                     parameterBindings :=
                       BindingMap.insertPair st.doc.parameterBindings definition binding },
                   paramFile := some ⟨groups2⟩, nextId := st.nextId + 1 },
                 evs1 ++ [.createDefinition paramName, .insertBinding definition binding],
                 none)
          else .error .attributeError

/-- The host reflection surface `BuiltInParameterNameMap.__init__` touches:
the `dir(revitron.DB.BuiltInParameter)` listing, the `getattr` on that enum
(yielding the member's integer value) and `LabelUtils.GetLabelFor`; either
call may raise, modelled with `Except`. -/
structure HostEnv where
  builtInParams : List String
  getAttr : String → Except PyError Int
  getLabelFor : Int → Except PyError String

/-- Body of the `try` block run for one `dir` entry: resolve the enum
member, resolve its label and record `self.map[name] = bip`; any raise is
swallowed by the bare `except: pass`, leaving the map as it was. The dict
is kept as an association list where a later entry for the same key
shadows an earlier one (`dictGet` takes the last), matching Python dict
assignment. -/
def BuiltInParameterNameMap.buildStep (env : HostEnv)
    (m : List (String × Int)) (item : String) : List (String × Int) :=
  match env.getAttr item with
  | .error _ => m
  | .ok bip =>
    match env.getLabelFor bip with
    | .error _ => m
    | .ok name => m ++ [(name, bip)]

/-- `BuiltInParameterNameMap.__init__`: folds `buildStep` over the `dir`
listing starting from the empty dict. -/
def BuiltInParameterNameMap.build (env : HostEnv) : List (String × Int) :=
  env.builtInParams.foldl (BuiltInParameterNameMap.buildStep env) []

/-- Python dict lookup on the association-list representation: the last
binding of the key wins (assignment shadows). -/
def dictGet (m : List (String × Int)) (k : String) : Option Int :=
  (m.reverse.find? (fun kv => kv.1 == k)).map (fun kv => kv.2)

/-- Holds when both host calls for a `dir` entry succeed, so that the
entry contributes to the map. -/
def resolvesLabel (env : HostEnv) (item : String) : Bool :=
  match env.getAttr item with
  | .error _ => false
  | .ok bip =>
    match env.getLabelFor bip with
    | .error _ => false
    | .ok _ => true

/-- `BuiltInParameterNameMap.getId`: `self.map[name]` raises `KeyError`
when the name is absent; on a hit the code wraps the enum value in
`ElementId(int(bip))`, modelled as the integer itself. -/
def BuiltInParameterNameMap.getId (m : List (String × Int)) (name : String) :
    Except PyError Int :=
  match dictGet m name with
  | some bip => .ok bip
  | none => .error .keyError

/-- Host calls `ParameterValueProvider.__init__` can make beyond reading
the binding iterator: constructing (and thereby building) a fresh
`BuiltInParameterNameMap`. -/
inductive ProviderEvent where
  | buildBuiltInMap
deriving DecidableEq

/-- The `ParameterValueProvider` wrapper: `self.provider` is the host
`DB.ParameterValueProvider` (recorded by the ElementId it wraps) or
`None`. -/
structure ParameterValueProvider where
  provider : Option Int
deriving DecidableEq

/-- The `while it.MoveNext()` loop of `ParameterValueProvider.__init__`:
starts with `paramId = None` and overwrites it on every key whose name
matches, so the last matching binding in forward-iterator order wins. -/
def ParameterValueProvider.scanBindings (doc : Doc) (name : String) : Option Int :=
  doc.parameterBindings.foldl
    (fun acc db => if db.1.name == name then some db.1.id else acc) none

/-- `ParameterValueProvider.__init__`: scans the binding iterator; when no
binding matched (`if not paramId`, and an ElementId object is always
truthy while `None` is falsy) it constructs a fresh
`BuiltInParameterNameMap` and asks it for the id, swallowing any raise
with `except: pass`; when an id was found either way, wraps it in the host
value provider. The second component is the trace of map constructions. -/
def ParameterValueProvider.init (env : HostEnv) (doc : Doc) (name : String) :
    ParameterValueProvider × List ProviderEvent :=
  match ParameterValueProvider.scanBindings doc name with
  | some paramId => (⟨some paramId⟩, [])
  | none =>
    match BuiltInParameterNameMap.getId (BuiltInParameterNameMap.build env) name with
    | .ok paramId => (⟨some paramId⟩, [.buildBuiltInMap])
    | .error _ => (⟨none⟩, [.buildBuiltInMap])

/-- `ParameterValueProvider.get`: returns `self.provider`. -/
def ParameterValueProvider.get (p : ParameterValueProvider) : Option Int :=
  p.provider

/-- Lazy search for the closing brace of the pattern fragment `(.+?)\}`:
`acc` holds (reversed) the group characters consumed so far, at least one.
The next `'\x7d'` character closes the group (the lazy quantifier grows the
group only while no closing brace matches); a newline cannot be consumed
by `'.'`, so it kills the match attempt. -/
def scanGroup (acc : List Char) : List Char → Option (List Char × List Char)
  | [] => none
  | d :: ds =>
    if d = '}' then some (acc.reverse, ds)
    else if d = '\n' then none
    else scanGroup (d :: acc) ds

/-- Match attempt for the regex `\x7b(.+?)\x7d` at a position right after
an opening brace: the group must take at least one non-newline character,
then `scanGroup` finds the earliest closing brace. Returns the group and
the residue after the match, or `none` when the regex cannot match here. -/
def matchGroup : List Char → Option (List Char × List Char)
  | [] => none
  | c :: cs => if c = '\n' then none else scanGroup [c] cs

theorem scanGroup_tail_lt (acc l g t : List Char)
    (h : scanGroup acc l = some (g, t)) : t.length < l.length := by
  induction l generalizing acc with
  | nil => simp [scanGroup] at h
  | cons d ds ih =>
    unfold scanGroup at h
    split at h
    · cases h
      exact Nat.lt_succ_self _
    · split at h
      · cases h
      · exact Nat.lt_trans (ih _ h) (Nat.lt_succ_self _)

theorem matchGroup_tail_lt (l g t : List Char)
    (h : matchGroup l = some (g, t)) : t.length < l.length := by
  cases l with
  | nil => simp [matchGroup] at h
  | cons c cs =>
    simp only [matchGroup] at h
    by_cases hc : c = '\n'
    · simp [hc] at h
    · rw [if_neg hc] at h
      exact Nat.lt_trans (scanGroup_tail_lt _ _ _ _ h) (Nat.lt_succ_self _)

/-- `re.sub` specialised to the pattern `\x7b(.+?)\x7d` of
`ParameterTemplate.render`: scan left to right; at an opening brace where
the pattern matches, emit the callback's result for the group and resume
after the match; any other character (and an opening brace where the
pattern cannot match) is copied unchanged. -/
def reSubTemplate (callback : String → String) : List Char → List Char
  | [] => []
  | c :: cs =>
    if c = '{' then
      match h : matchGroup cs with
      | some (grp, tail) => (callback (String.mk grp)).toList ++ reSubTemplate callback tail
      | none => c :: reSubTemplate callback cs
    else c :: reSubTemplate callback cs
termination_by l => l.length
decreasing_by
  · exact Nat.lt_trans (matchGroup_tail_lt _ _ _ h) (Nat.lt_succ_self _)
  · exact Nat.lt_succ_self _
  · exact Nat.lt_succ_self _

/-- The `ParameterTemplate` wrapper. The element and the two helpers it
calls live outside this module, so they are carried as data: `elementGet`
— Modelled from the spec: `revitron.Element(self.element).get(parameter)`
returns the element parameter's value for a name — and `sanitizeFn` —
Modelled from the spec: `revitron.String.sanitize` is an opaque string
sanitizer applied when the `sanitize` flag is set. -/
structure ParameterTemplate where
  elementGet : String → String
  sanitizeFn : String → String
  template : String
  sanitize : Bool

/-- `ParameterTemplate.reCallback`: looks the matched group up as an
element parameter and optionally sanitizes the resulting string. -/
def ParameterTemplate.reCallback (t : ParameterTemplate) (parameter : String) : String :=
  let string := t.elementGet parameter
  if t.sanitize then t.sanitizeFn string else string

/-- `ParameterTemplate.render`:
`re.sub('\x5c\x7b(.+?)\x5c\x7d', self.reCallback, self.template)`. -/
def ParameterTemplate.render (t : ParameterTemplate) : String :=
  String.mk (reSubTemplate t.reCallback t.template.toList)

/-- Sample host parameter of storage type Integer holding a value. -/
def sampleIntParam : Parameter :=
  ⟨some { storageType := "Integer", hasValue := true, asString := "7",
          asValueString := "7", asInteger := 7, asDouble := 7,
          asElementId := 7, isReadOnly := false }⟩

/-- Sample host parameter whose storage type prints as 'None', the member
of the host StorageType enum for parameters without stored data. -/
def noneStorageParam : Parameter :=
  ⟨some { storageType := "None", hasValue := false, asString := "",
          asValueString := "", asInteger := 0, asDouble := 0,
          asElementId := 0, isReadOnly := false }⟩

/-- Sample read-only host parameter. -/
def readOnlyParam : Parameter :=
  ⟨some { storageType := "String", hasValue := true, asString := "ro",
          asValueString := "ro", asInteger := 0, asDouble := 0,
          asElementId := 0, isReadOnly := true }⟩

/-- Sample host parameter of storage type ElementId holding a value. -/
def elementIdParam : Parameter :=
  ⟨some { storageType := "ElementId", hasValue := true, asString := "",
          asValueString := "", asInteger := 0, asDouble := 0,
          asElementId := 42, isReadOnly := false }⟩

/-- Sample host parameter of storage type ElementId without a value. -/
def emptyElementIdParam : Parameter :=
  ⟨some { storageType := "ElementId", hasValue := false, asString := "",
          asValueString := "", asInteger := 0, asDouble := 0,
          asElementId := 0, isReadOnly := false }⟩

/-- C1: `Parameter.get` selects its getter by the string name of the
host-reported storage type — String, ValueString, Integer, Double and
ElementId map to the matching getter — and when the underlying parameter
does not exist the storage type defaults to the literal 'String', so `get`
returns the empty string. -/
theorem C1_get_dispatch (p : Parameter) :
    (p.parameter = none → p.get = .ok p.getString ∧ p.get = .ok (.vstr "")) ∧
    ∀ hp, p.parameter = some hp →
      (hp.storageType = "String" → p.get = .ok p.getString) ∧
      (hp.storageType = "ValueString" → p.get = .ok p.getValueString) ∧
      (hp.storageType = "Integer" → p.get = .ok p.getInteger) ∧
      (hp.storageType = "Double" → p.get = .ok p.getDouble) ∧
      (hp.storageType = "ElementId" → p.get = .ok p.getElementId) := by
  obtain ⟨param⟩ := p
  constructor
  · rintro rfl
    exact ⟨rfl, rfl⟩
  · rintro hp rfl
    refine ⟨?_, ?_, ?_, ?_, ?_⟩ <;> intro hs <;> simp [Parameter.get, hs]

/-- Witness for C1: a missing parameter yields the empty string, and a
concrete Integer-typed parameter is dispatched to `getInteger`. -/
theorem C1_get_dispatch_witness :
    (Parameter.mk none).get = .ok (.vstr "") ∧
    sampleIntParam.get = .ok sampleIntParam.getInteger :=
  ⟨((C1_get_dispatch ⟨none⟩).1 rfl).2,
   ((C1_get_dispatch sampleIntParam).2 _ rfl).2.2.1 rfl⟩

/-- C2 counterexample: the claim says `Parameter.get` never raises for any
host-reported storage-type name, 'None' included; but for a parameter
whose storage type prints as 'None' the switcher lookup yields `None` and
calling it raises a TypeError, which `get` propagates. -/
theorem C2_counterexample : noneStorageParam.get = .error .typeError := rfl

/-- C2 (amended): `set` always returns None and the getters return
defaults rather than raising, and `get` does not raise when the parameter
is missing or when the reported storage-type name is one of the five
handled ones; but for any other storage-type name (such as 'None') `get`
raises a TypeError. -/
theorem C2_no_raise_amended (p : Parameter) :
    (∀ value, (p.set value).2 = none) ∧
    (p.parameter = none → p.get = .ok (.vstr "")) ∧
    ∀ hp, p.parameter = some hp →
      (hp.storageType ∈ handledStorageTypes → ∃ v, p.get = .ok v) ∧
      (hp.storageType ∉ handledStorageTypes → p.get = .error .typeError) := by
  obtain ⟨param⟩ := p
  refine ⟨?_, ?_, ?_⟩
  · intro value
    cases param with
    | none => rfl
    | some hp => cases h : hp.isReadOnly <;> simp [Parameter.set, h]
  · rintro rfl
    rfl
  · rintro hp rfl
    constructor
    · intro hmem
      simp only [handledStorageTypes, List.mem_cons, List.not_mem_nil, or_false] at hmem
      rcases hmem with hs | hs | hs | hs | hs
      · exact ⟨Parameter.getString ⟨some hp⟩, by simp [Parameter.get, hs]⟩
      · exact ⟨Parameter.getValueString ⟨some hp⟩, by simp [Parameter.get, hs]⟩
      · exact ⟨Parameter.getInteger ⟨some hp⟩, by simp [Parameter.get, hs]⟩
      · exact ⟨Parameter.getDouble ⟨some hp⟩, by simp [Parameter.get, hs]⟩
      · exact ⟨Parameter.getElementId ⟨some hp⟩, by simp [Parameter.get, hs]⟩
    · intro hmem
      simp only [handledStorageTypes, List.mem_cons, List.not_mem_nil, or_false,
        not_or] at hmem
      obtain ⟨h1, h2, h3, h4, h5⟩ := hmem
      simp [Parameter.get, h1, h2, h3, h4, h5]

/-- Witness for C2 (amended): a Set call on a concrete parameter returns
None, the 'None' storage type raises, and the Integer storage type does
not. -/
theorem C2_no_raise_amended_witness :
    (sampleIntParam.set (.vint 3)).2 = none ∧
    noneStorageParam.get = .error .typeError ∧
    (∃ v, sampleIntParam.get = .ok v) :=
  ⟨(C2_no_raise_amended sampleIntParam).1 _,
   ((C2_no_raise_amended noneStorageParam).2.2 _ rfl).2 (by decide),
   ((C2_no_raise_amended sampleIntParam).2.2 _ rfl).1 (by decide)⟩

/-- C7: `Parameter.set` performs the host `Set(value)` call exactly when
the parameter exists and is not read-only; when it is missing or
read-only no host call happens; and in every case the method returns None
(no failure indication). -/
theorem C7_set_delegation (p : Parameter) (value : Value) :
    ((p.set value).2 = none) ∧
    (∀ hp, p.parameter = some hp → hp.isReadOnly = false →
      (p.set value).1 = [.setValue value]) ∧
    (p.parameter = none → (p.set value).1 = []) ∧
    (∀ hp, p.parameter = some hp → hp.isReadOnly = true →
      (p.set value).1 = []) := by
  obtain ⟨param⟩ := p
  refine ⟨?_, ?_, ?_, ?_⟩
  · cases param with
    | none => rfl
    | some hp => cases h : hp.isReadOnly <;> simp [Parameter.set, h]
  · rintro hp rfl h
    simp [Parameter.set, h]
  · rintro rfl
    rfl
  · rintro hp rfl h
    simp [Parameter.set, h]

/-- Witness for C7: a writable parameter receives the Set call and returns
None; a read-only one and a missing one receive no call. -/
theorem C7_set_delegation_witness :
    (sampleIntParam.set (.vstr "x")).1 = [.setValue (.vstr "x")] ∧
    (sampleIntParam.set (.vstr "x")).2 = none ∧
    (readOnlyParam.set (.vstr "x")).1 = [] ∧
    ((Parameter.mk none).set (.vstr "x")).1 = [] :=
  ⟨(C7_set_delegation sampleIntParam _).2.1 _ rfl rfl,
   (C7_set_delegation sampleIntParam _).1,
   (C7_set_delegation readOnlyParam _).2.2.2 _ rfl rfl,
   (C7_set_delegation ⟨none⟩ _).2.2.1 rfl⟩

/-- C9: `getElementId` returns the plain integer 0 when the parameter is
missing or has no value, and the host AsElementId result (an ElementId
value, a different Python type) when it has one; the two results live in
different `Value` constructors, so the return type is not uniform. -/
theorem C9_getElementId_shape (p : Parameter) :
    (truthy p.hasValue = false → p.getElementId = .vint 0) ∧
    (∀ hp, p.parameter = some hp → hp.hasValue = true →
      p.getElementId = .velemId hp.asElementId ∧ p.getElementId ≠ .vint 0) := by
  obtain ⟨param⟩ := p
  constructor
  · intro h
    cases param with
    | none => rfl
    | some hp =>
      simp only [Parameter.hasValue, truthy] at h
      simp [Parameter.getElementId, h]
  · rintro hp rfl h
    simp [Parameter.getElementId, h]

/-- Witness for C9: a valued ElementId parameter yields an ElementId-typed
result, a valueless one yields the integer 0. -/
theorem C9_getElementId_shape_witness :
    elementIdParam.getElementId = .velemId 42 ∧
    elementIdParam.getElementId ≠ .vint 0 ∧
    emptyElementIdParam.getElementId = .vint 0 :=
  ⟨((C9_getElementId_shape elementIdParam).2 _ rfl rfl).1,
   ((C9_getElementId_shape elementIdParam).2 _ rfl rfl).2,
   (C9_getElementId_shape emptyElementIdParam).1 rfl⟩

/-- Sample document with one shared parameter named P bound to the Walls
category. -/
def docW : Doc :=
  ⟨[⟨"P", 1⟩], [(⟨"P", 1⟩, ⟨["Walls"]⟩)]⟩

/-- Sample document with one orphaned shared parameter element: its
definition P is not a key of the binding map. -/
def orphanDoc : Doc :=
  ⟨[⟨"P", 1⟩], []⟩

/-- Sample document with two shared parameter elements both named P; only
the second one's definition is bound to the Walls category. -/
def dupNameDoc : Doc :=
  ⟨[⟨"P", 1⟩, ⟨"P", 2⟩], [(⟨"P", 1⟩, ⟨["Doors"]⟩), (⟨"P", 2⟩, ⟨["Walls"]⟩)]⟩

/-- C6 counterexample: the claim fails on two reachable documents. On a
document whose only shared parameter element P has no binding,
`isBoundToCategory` raises an AttributeError (the host indexer yields None
and `None.Categories` is iterated) instead of returning None, so the
claim's 'in every other case it returns None' is false. And on a document
with two elements named P where only the second one's binding holds the
category, the loop breaks on the first element and the function returns
None although the claim's existential — some element with that name whose
binding contains the category — holds. -/
theorem C6_counterexample :
    (Parameter.isBoundToCategory orphanDoc "Walls" "P" = .error .attributeError) ∧
    (Parameter.isBoundToCategory dupNameDoc "Walls" "P" = .ok none ∧
      ∃ d ∈ dupNameDoc.sharedParams, d.name = "P" ∧
        ∃ b, bindingFor dupNameDoc d = some b ∧ "Walls" ∈ b.categories) :=
  ⟨rfl, rfl, ⟨"P", 2⟩, by decide, rfl, ⟨["Walls"]⟩, rfl, by decide⟩

/-- C6 (amended): `isBoundToCategory` returns True exactly when the first
shared parameter element (in iteration order) whose definition carries the
requested name exists and that definition's binding contains a category
with the requested name; when no element carries the name, or that first
definition's binding lacks the category, it returns None — never False;
and when that first definition is not a key of the binding map an
AttributeError propagates instead of any return. -/
theorem C6_isBoundToCategory_amended (doc : Doc) (category paramName : String) :
    (Parameter.isBoundToCategory doc category paramName = .ok (some true) ↔
      ∃ d, doc.sharedParams.find? (fun d2 => d2.name == paramName) = some d ∧
        ∃ b, bindingFor doc d = some b ∧ category ∈ b.categories) ∧
    (Parameter.isBoundToCategory doc category paramName = .error .attributeError ↔
      ∃ d, doc.sharedParams.find? (fun d2 => d2.name == paramName) = some d ∧
        bindingFor doc d = none) ∧
    (∀ r, Parameter.isBoundToCategory doc category paramName = .ok r →
      r = some true ∨ r = none) := by
  cases hfind : doc.sharedParams.find? (fun d2 => d2.name == paramName) with
  | none =>
    have hres : Parameter.isBoundToCategory doc category paramName = .ok none := by
      simp [Parameter.isBoundToCategory, hfind]
    refine ⟨⟨fun h => ?_, fun h => ?_⟩, ⟨fun h => ?_, fun h => ?_⟩, fun r hr => ?_⟩
    · rw [hres] at h
      simp at h
    · obtain ⟨d, hd, -⟩ := h
      cases hd
    · rw [hres] at h
      simp at h
    · obtain ⟨d, hd, -⟩ := h
      cases hd
    · rw [hres] at hr
      cases hr
      exact Or.inr rfl
  | some d =>
    cases hb : bindingFor doc d with
    | none =>
      have hres : Parameter.isBoundToCategory doc category paramName =
          .error .attributeError := by
        simp [Parameter.isBoundToCategory, hfind, hb]
      refine ⟨⟨fun h => ?_, fun h => ?_⟩, ⟨fun _ => ⟨d, rfl, hb⟩, fun _ => hres⟩,
              fun r hr => ?_⟩
      · rw [hres] at h
        simp at h
      · obtain ⟨d2, hd2, b2, hb2, -⟩ := h
        cases hd2
        rw [hb] at hb2
        cases hb2
      · rw [hres] at hr
        cases hr
    | some b =>
      by_cases hc : category ∈ b.categories
      · have hres : Parameter.isBoundToCategory doc category paramName =
            .ok (some true) := by
          simp [Parameter.isBoundToCategory, hfind, hb, hc]
        refine ⟨⟨fun _ => ⟨d, rfl, b, hb, hc⟩, fun _ => hres⟩,
                ⟨fun h => ?_, fun h => ?_⟩, fun r hr => ?_⟩
        · rw [hres] at h
          simp at h
        · obtain ⟨d2, hd2, hb2⟩ := h
          cases hd2
          rw [hb] at hb2
          cases hb2
        · rw [hres] at hr
          cases hr
          exact Or.inl rfl
      · have hres : Parameter.isBoundToCategory doc category paramName = .ok none := by
          simp [Parameter.isBoundToCategory, hfind, hb, hc]
        refine ⟨⟨fun h => ?_, fun h => ?_⟩, ⟨fun h => ?_, fun h => ?_⟩, fun r hr => ?_⟩
        · rw [hres] at h
          simp at h
        · obtain ⟨d2, hd2, b2, hb2, hm2⟩ := h
          cases hd2
          rw [hb] at hb2
          cases hb2
          exact absurd hm2 hc
        · rw [hres] at h
          simp at h
        · obtain ⟨d2, hd2, hb2⟩ := h
          cases hd2
          rw [hb] at hb2
          cases hb2
        · rw [hres] at hr
          cases hr
          exact Or.inr rfl

/-- Witness for C6 (amended): a concrete bound pair yields True through
the characterisation, and the orphaned element ends in the AttributeError
case. -/
theorem C6_isBoundToCategory_amended_witness :
    Parameter.isBoundToCategory docW "Walls" "P" = .ok (some true) ∧
    Parameter.isBoundToCategory orphanDoc "Walls" "P" = .error .attributeError :=
  ⟨((C6_isBoundToCategory_amended docW "Walls" "P").1).mpr
     ⟨⟨"P", 1⟩, rfl, ⟨["Walls"]⟩, rfl, by decide⟩,
   ((C6_isBoundToCategory_amended orphanDoc "Walls" "P").2.1).mpr
     ⟨⟨"P", 1⟩, rfl, rfl⟩⟩

/-- Sample empty host state for `bind`: no shared parameters, no bindings,
an open shared parameter file with no groups. -/
def emptyState : HostState :=
  ⟨⟨[], []⟩, some ⟨[]⟩, 0⟩

/-- Sample host state whose document already has parameter P bound to the
Walls category. -/
def boundState : HostState :=
  ⟨docW, some ⟨[]⟩, 5⟩

/-- Sample host state whose document holds the orphaned element P (no
binding for its definition), with an open shared parameter file. -/
def orphanState : HostState :=
  ⟨orphanDoc, some ⟨[]⟩, 0⟩

/-- Sample host state where `OpenSharedParameterFile()` returns None. -/
def noFileState : HostState :=
  ⟨⟨[], []⟩, none, 0⟩

/-- C5 counterexample: the claim fails on two reachable host states in
which the parameter is NOT already bound to the category, where the
claim's 'otherwise' branch promises creation, insertion and a None
return. With an orphaned shared parameter element named P the initial
bound check raises an AttributeError which `bind` propagates, creating and
inserting nothing; and with no shared parameter file open,
`OpenSharedParameterFile()` returns None and iterating `paramFile.Groups`
raises an AttributeError likewise. -/
theorem C5_counterexample :
    (Parameter.isBoundToCategory orphanState.doc "Walls" "P" =
      .error .attributeError) ∧
    Parameter.bind orphanState "Walls" "P" "Text" = .error .attributeError ∧
    (Parameter.isBoundToCategory noFileState.doc "Walls" "P" = .ok none) ∧
    Parameter.bind noFileState "Walls" "P" "Text" = .error .attributeError :=
  ⟨rfl, rfl, rfl, rfl⟩

/-- C5 (amended): when the parameter is already bound to the category,
`bind` returns True, performs no host call and leaves the document and the
shared parameter file unchanged; when the bound check raises (an element
with that name exists but its definition is not a key of the binding map)
the exception propagates and nothing is created or inserted; when the
check returns None but no shared parameter file is open, an AttributeError
propagates likewise; otherwise `bind` creates the `'__API'` group exactly
when that group is missing, creates the definition exactly when no
definition of that name is in the group, inserts an instance binding whose
category set holds exactly the requested category, and returns None. -/
theorem C5_bind_amended (st : HostState) (category paramName : String)
    : (Parameter.isBoundToCategory st.doc category paramName = .ok (some true) →
        Parameter.bind st category paramName "Text" = .ok (st, [], some true)) ∧
      (∀ e, Parameter.isBoundToCategory st.doc category paramName = .error e →
        Parameter.bind st category paramName "Text" = .error e) ∧
      (Parameter.isBoundToCategory st.doc category paramName = .ok none →
        st.paramFile = none →
        Parameter.bind st category paramName "Text" = .error .attributeError) ∧
      (∀ pf, Parameter.isBoundToCategory st.doc category paramName = .ok none →
        st.paramFile = some pf →
        ∃ st2 evs, Parameter.bind st category paramName "Text" = .ok (st2, evs, none) ∧
          ((HostEvent.createGroup "__API") ∈ evs ↔
            pf.groups.find? (fun g => g.name == "__API") = none) ∧
          ((HostEvent.createDefinition paramName) ∈ evs ↔
            ¬ ∃ g, pf.groups.find? (fun g2 => g2.name == "__API") = some g ∧
              (g.definitions.find? (fun d => d.name == paramName)).isSome) ∧
          (∃ d, d.name = paramName ∧
            evs.getLast? = some (.insertBinding d ⟨[category]⟩) ∧
            st2.doc.parameterBindings =
              BindingMap.insertPair st.doc.parameterBindings d ⟨[category]⟩)) := by
  refine ⟨?_, ?_, ?_, ?_⟩
  · intro h
    unfold Parameter.bind
    rw [h]
    exact rfl
  · intro e h
    unfold Parameter.bind
    rw [h]
  · intro h hf
    unfold Parameter.bind
    rw [h, hf]
    exact rfl
  · intro pf h hf
    cases hg : pf.groups.find? (fun g => g.name == "__API") with
    | some g =>
      cases hd : g.definitions.find? (fun d => d.name == paramName) with
      | some d =>
        have hdname : d.name = paramName := by
          have := List.find?_some hd
          simpa using this
        refine ⟨⟨{ st.doc with parameterBindings :=
                     (BindingMap.insertPair st.doc.parameterBindings d ⟨[category]⟩) },
                  some ⟨pf.groups⟩, st.nextId⟩,
                [.insertBinding d ⟨[category]⟩], ?_, ?_, ?_, d, hdname, rfl, rfl⟩
        · simp [Parameter.bind, h, truthy, hf, hg, hd]
        · simp [hg]
        · simp [hg]
          exact ⟨d, List.mem_of_find?_eq_some hd, hdname⟩
      | none =>
        refine ⟨⟨{ st.doc with parameterBindings :=
                     (BindingMap.insertPair st.doc.parameterBindings
                       ⟨paramName, st.nextId⟩ ⟨[category]⟩) },
                  some ⟨pf.groups.map (fun g2 =>
                     if g2.name == "__API" then
                       { g2 with definitions := g2.definitions ++ [⟨paramName, st.nextId⟩] }
                     else g2)⟩, st.nextId + 1⟩,
                [.createDefinition paramName,
                 .insertBinding ⟨paramName, st.nextId⟩ ⟨[category]⟩],
                ?_, ?_, ?_, ⟨paramName, st.nextId⟩, rfl, rfl, rfl⟩
        · simp [Parameter.bind, h, truthy, hf, hg, hd, parameterTypeNames]
        · simp [hg]
        · simp [hg]
          intro x hx
          have := List.find?_eq_none.mp hd x hx
          simpa using this
    | none =>
      refine ⟨⟨{ st.doc with parameterBindings :=
                   (BindingMap.insertPair st.doc.parameterBindings
                     ⟨paramName, st.nextId⟩ ⟨[category]⟩) },
                some ⟨(pf.groups ++ [(⟨"__API", []⟩ : DefinitionGroup)]).map
                   (fun g2 =>
                     if g2.name == "__API" then
                       { g2 with definitions :=
                           (g2.definitions ++ [(⟨paramName, st.nextId⟩ : Definition)]) }
                     else g2)⟩, st.nextId + 1⟩,
              [.createGroup "__API", .createDefinition paramName,
               .insertBinding ⟨paramName, st.nextId⟩ ⟨[category]⟩],
              ?_, ?_, ?_, ⟨paramName, st.nextId⟩, rfl, rfl, rfl⟩
      · simp [Parameter.bind, h, truthy, hf, hg, parameterTypeNames]
      · simp [hg]
      · simp [hg]

/-- Witness for C5 (amended): binding an already-bound pair returns True
and changes nothing; the orphaned element propagates the bound check's
AttributeError; the missing shared parameter file raises; and binding into
an empty state creates the group and the definition and inserts the
binding. -/
theorem C5_bind_amended_witness :
    Parameter.bind boundState "Walls" "P" "Text" = .ok (boundState, [], some true) ∧
    Parameter.bind orphanState "Walls" "P" "Text" = .error .attributeError ∧
    Parameter.bind noFileState "Walls" "P" "Text" = .error .attributeError ∧
    Parameter.bind emptyState "Doors" "Q" "Text" =
      .ok (⟨⟨[], [(⟨"Q", 0⟩, ⟨["Doors"]⟩)]⟩, some ⟨[⟨"__API", [⟨"Q", 0⟩]⟩]⟩, 1⟩,
           [.createGroup "__API", .createDefinition "Q",
            .insertBinding ⟨"Q", 0⟩ ⟨["Doors"]⟩], none) :=
  ⟨(C5_bind_amended boundState "Walls" "P").1 rfl,
   (C5_bind_amended orphanState "Walls" "P").2.1 .attributeError rfl,
   (C5_bind_amended noFileState "Walls" "P").2.2.1 rfl rfl,
   rfl⟩

theorem buildStep_skip (env : HostEnv) (m : List (String × Int)) (item : String)
    (h : resolvesLabel env item = false) :
    BuiltInParameterNameMap.buildStep env m item = m := by
  cases hA : env.getAttr item with
  | error e => simp [BuiltInParameterNameMap.buildStep, hA]
  | ok bip =>
    cases hL : env.getLabelFor bip with
    | error e => simp [BuiltInParameterNameMap.buildStep, hA, hL]
    | ok lbl =>
      have htrue : resolvesLabel env item = true := by
        simp [resolvesLabel, hA, hL]
      rw [htrue] at h
      cases h

theorem build_foldl_filter (env : HostEnv) (l : List String) (m : List (String × Int)) :
    l.foldl (BuiltInParameterNameMap.buildStep env) m =
      (l.filter (resolvesLabel env)).foldl (BuiltInParameterNameMap.buildStep env) m := by
  induction l generalizing m with
  | nil => rfl
  | cons a l ih =>
    by_cases ha : resolvesLabel env a
    · simp only [List.filter_cons, ha, if_true, List.foldl_cons]
      exact ih _
    · have ha2 : resolvesLabel env a = false := by simpa using ha
      simp only [List.filter_cons, ha2, Bool.false_eq_true, if_false, List.foldl_cons,
        buildStep_skip env m a ha2]
      exact ih m

/-- Sample document with no shared parameters and no bindings. -/
def emptyDoc : Doc := ⟨[], []⟩

/-- Sample host reflection environment: entry GOOD resolves to enum value
5 labelled Comments, entry BAD fails on `getattr`. -/
def envW : HostEnv :=
  { builtInParams := ["GOOD", "BAD"],
    getAttr := fun item => if item = "GOOD" then .ok 5 else .error .attributeError,
    getLabelFor := fun bip => if bip = 5 then .ok "Comments" else .error .keyError }

/-- Host reflection environment where nothing resolves. -/
def emptyEnv : HostEnv :=
  ⟨[], fun _ => .error .attributeError, fun _ => .error .attributeError⟩

/-- C8: exceptions during built-in parameter name resolution are
swallowed: the map built from reflection equals the map built from only
the entries whose two host calls succeed (failing entries are skipped),
and when the provider's fallback lookup fails the exception is swallowed,
the provider stays None and `get()` returns None. -/
theorem C8_resolution_errors_swallowed (env : HostEnv) (doc : Doc) (name : String) :
    (BuiltInParameterNameMap.build env =
      BuiltInParameterNameMap.build
        { env with builtInParams := env.builtInParams.filter (resolvesLabel env) }) ∧
    (ParameterValueProvider.scanBindings doc name = none →
      dictGet (BuiltInParameterNameMap.build env) name = none →
      ParameterValueProvider.init env doc name = (⟨none⟩, [.buildBuiltInMap]) ∧
      ((ParameterValueProvider.init env doc name).1).get = none) := by
  constructor
  · exact build_foldl_filter env env.builtInParams []
  · intro hscan hmiss
    have hinit : ParameterValueProvider.init env doc name = (⟨none⟩, [.buildBuiltInMap]) := by
      simp [ParameterValueProvider.init, hscan, BuiltInParameterNameMap.getId, hmiss]
    refine ⟨hinit, ?_⟩
    rw [hinit]
    rfl

/-- Witness for C8: the failing entry BAD is skipped while GOOD lands in
the map, and a provider lookup for an absent name ends with a None
provider. -/
theorem C8_resolution_errors_swallowed_witness :
    BuiltInParameterNameMap.build envW = [("Comments", 5)] ∧
    ParameterValueProvider.init envW emptyDoc "Missing" = (⟨none⟩, [.buildBuiltInMap]) ∧
    ((ParameterValueProvider.init envW emptyDoc "Missing").1).get = none := by
  refine ⟨rfl, ?_⟩
  have h := (C8_resolution_errors_swallowed envW emptyDoc "Missing").2 rfl rfl
  exact h

/-- Trace of two successive ParameterValueProvider lookups that both fall
back to the built-in parameter map, on a document with no bindings. -/
def twoProviderLookups : List ProviderEvent :=
  (ParameterValueProvider.init emptyEnv emptyDoc "Comments").2 ++
  (ParameterValueProvider.init emptyEnv emptyDoc "Comments").2

/-- C3 counterexample: the claim says the built-in name-to-id map is built
exactly once, later lookups reusing the same map; but across two concrete
fallback lookups the map is constructed twice — each lookup rebuilds it,
and no state survives from one to the next. -/
theorem C3_counterexample :
    twoProviderLookups.count .buildBuiltInMap = 2 ∧
    ¬ twoProviderLookups.count .buildBuiltInMap ≤ 1 := by decide

/-- C3 (amended): there is no process-lifetime cache: every
ParameterValueProvider construction whose binding scan finds no match
builds a fresh BuiltInParameterNameMap from host reflection — exactly one
construction per such lookup — rather than reusing an earlier map. -/
theorem C3_map_rebuilt_amended (env : HostEnv) (doc : Doc) (name : String)
    (h : ParameterValueProvider.scanBindings doc name = none) :
    ((ParameterValueProvider.init env doc name).2).count .buildBuiltInMap = 1 := by
  unfold ParameterValueProvider.init
  rw [h]
  cases hid : BuiltInParameterNameMap.getId (BuiltInParameterNameMap.build env) name <;>
    simp [hid, List.count_cons]

/-- Witness for C3 (amended): one concrete fallback lookup performs one
map construction. -/
theorem C3_map_rebuilt_amended_witness :
    ((ParameterValueProvider.init emptyEnv emptyDoc "Comments").2).count
      .buildBuiltInMap = 1 :=
  C3_map_rebuilt_amended emptyEnv emptyDoc "Comments" rfl

theorem scanBindings_no_match (name : String) (l : List (Definition × Binding))
    (acc : Option Int) (h : ∀ x ∈ l, x.1.name ≠ name) :
    l.foldl (fun acc db => if db.1.name == name then some db.1.id else acc) acc = acc := by
  induction l generalizing acc with
  | nil => rfl
  | cons a l ih =>
    have ha : (a.1.name == name) = false := by
      simpa using h a (List.mem_cons_self a l)
    simp only [List.foldl_cons, ha, Bool.false_eq_true, if_false]
    exact ih acc (fun x hx => h x (List.mem_cons_of_mem a hx))

/-- C10: the binding scan of `ParameterValueProvider.__init__` does not
stop at the first match: when the iterator yields a matching binding after
which no further binding matches, that (last) match's id is the one used,
and the built-in parameter map is not consulted (the construction trace is
empty). -/
theorem C10_last_match_wins (env : HostEnv) (doc : Doc) (name : String)
    (l1 l2 : List (Definition × Binding)) (db : Definition × Binding)
    (hsplit : doc.parameterBindings = l1 ++ db :: l2)
    (hmatch : db.1.name = name)
    (hafter : ∀ x ∈ l2, x.1.name ≠ name) :
    ParameterValueProvider.scanBindings doc name = some db.1.id ∧
    ParameterValueProvider.init env doc name = (⟨some db.1.id⟩, []) := by
  have hscan : ParameterValueProvider.scanBindings doc name = some db.1.id := by
    unfold ParameterValueProvider.scanBindings
    rw [hsplit, List.foldl_append, List.foldl_cons]
    simp only [hmatch, beq_self_eq_true, if_true]
    exact scanBindings_no_match name l2 _ hafter
  refine ⟨hscan, ?_⟩
  unfold ParameterValueProvider.init
  rw [hscan]

/-- Sample document where two bindings carry the name P with different
ids, in iterator order. -/
def dupDoc : Doc :=
  ⟨[], [(⟨"P", 1⟩, ⟨["Walls"]⟩), (⟨"P", 2⟩, ⟨["Doors"]⟩)]⟩

/-- Witness for C10: with two bindings named P the provider ends up with
the id of the second (last) one, and no map construction happens. -/
theorem C10_last_match_wins_witness :
    ParameterValueProvider.init emptyEnv dupDoc "P" = (⟨some 2⟩, []) :=
  (C10_last_match_wins emptyEnv dupDoc "P" [(⟨"P", 1⟩, ⟨["Walls"]⟩)] []
    (⟨"P", 2⟩, ⟨["Doors"]⟩) rfl rfl (by simp)).2

theorem scanGroup_spec (name : List Char) :
    ∀ acc rest, '}' ∉ name → '\n' ∉ name →
      scanGroup acc (name ++ '}' :: rest) = some (acc.reverse ++ name, rest) := by
  induction name with
  | nil =>
    intro acc rest _ _
    simp [scanGroup]
  | cons c cs ih =>
    intro acc rest hbrace hnl
    simp only [List.mem_cons, not_or] at hbrace hnl
    have hc1 : ¬ (c = '}') := fun hcc => hbrace.1 hcc.symm
    have hc2 : ¬ (c = '\n') := fun hcc => hnl.1 hcc.symm
    simp only [List.cons_append, scanGroup, hc1, hc2, if_false, List.append_eq]
    rw [ih (c :: acc) rest hbrace.2 hnl.2]
    simp

theorem matchGroup_spec (name rest : List Char) (hne : name ≠ [])
    (hbrace : '}' ∉ name) (hnl : '\n' ∉ name) :
    matchGroup (name ++ '}' :: rest) = some (name, rest) := by
  cases name with
  | nil => exact absurd rfl hne
  | cons c cs =>
    simp only [List.mem_cons, not_or] at hbrace hnl
    have hc2 : ¬ (c = '\n') := fun hcc => hnl.1 hcc.symm
    simp only [List.cons_append, matchGroup, hc2, if_false]
    rw [scanGroup_spec cs [c] rest hbrace.2 hnl.2]
    simp

/-- Sample template whose element has a SheetNumber parameter. -/
def sampleTemplate : ParameterTemplate :=
  { elementGet := fun s => if s = "SheetNumber" then "A101" else "",
    sanitizeFn := fun s => s ++ "S",
    template := "No {SheetNumber} end",
    sanitize := true }

/-- C4: `render` is the brace-pattern substitution applied to the
template with `reCallback`; `reCallback` is the element parameter's value
passed through the sanitizer exactly when the flag is set; a character at
which the pattern cannot match is copied unchanged; and a brace-wrapped
non-empty group with no closing brace and no newline inside — the
shortest match, since the earliest closing brace ends it — is replaced by
the callback's result, rendering continuing after the match. -/
theorem C4_render_template (t : ParameterTemplate) :
    (t.render = String.mk (reSubTemplate t.reCallback t.template.toList)) ∧
    (∀ parameter, t.reCallback parameter =
      if t.sanitize then t.sanitizeFn (t.elementGet parameter)
      else t.elementGet parameter) ∧
    (∀ c cs, (c = '{' → matchGroup cs = none) →
      reSubTemplate t.reCallback (c :: cs) = c :: reSubTemplate t.reCallback cs) ∧
    (∀ name rest, name ≠ [] → '}' ∉ name → '\n' ∉ name →
      reSubTemplate t.reCallback ('{' :: (name ++ '}' :: rest)) =
        (t.reCallback (String.mk name)).toList ++
          reSubTemplate t.reCallback rest) := by
  refine ⟨rfl, fun parameter => rfl, ?_, ?_⟩
  · intro c cs hnone
    by_cases hc : c = '{'
    · subst hc
      simp only [reSubTemplate, if_true]
      split
      · rename_i grp tail heq
        rw [hnone rfl] at heq
        cases heq
      · rfl
    · simp only [reSubTemplate, hc, if_false]
  · intro name rest hne hbrace hnl
    simp only [reSubTemplate, if_true]
    split
    · rename_i grp tail heq
      rw [matchGroup_spec name rest hne hbrace hnl] at heq
      injection heq with h1
      cases h1
      rfl
    · rename_i heq
      rw [matchGroup_spec name rest hne hbrace hnl] at heq
      cases heq

/-- Witness for C4: the substitution equation instantiated at the concrete
group SheetNumber and residue, and the pass-through equation at a concrete
literal character. -/
theorem C4_render_template_witness :
    reSubTemplate sampleTemplate.reCallback
        ('{' :: ("SheetNumber".toList ++ '}' :: " end".toList)) =
      (sampleTemplate.reCallback "SheetNumber").toList ++
        reSubTemplate sampleTemplate.reCallback " end".toList ∧
    reSubTemplate sampleTemplate.reCallback ('N' :: "o".toList) =
      'N' :: reSubTemplate sampleTemplate.reCallback "o".toList :=
  ⟨(C4_render_template sampleTemplate).2.2.2 "SheetNumber".toList " end".toList
     (by decide) (by decide) (by decide),
   (C4_render_template sampleTemplate).2.2.1 'N' "o".toList
     (by intro h; cases h)⟩

end Revitron
